import Mathlib

/-
Formal model of the Auto_ML backend core, embedded from the repository
sources:

- backend/services/ai_recommendation_service.py : analyze_target_variable,
  recommend_model_type;
- backend/services/ml_service.py : train_model, predict_with_model and the
  artifact naming scheme;
- backend/services/auto_ml.py : the supervised model-type choice of
  run_auto_ml_pipeline;
- backend/tasks.py : train_model_task, generate_predictions_task,
  get_task_status, cancel_task (over a model of the Celery result backend);
- backend/routes/task_routes.py, backend/routes/ml_routes.py : thin
  endpoint wrappers.

Pandas dataframes are modelled as association lists of named columns; a
column carries a dtype tag and a list of cells.  Numeric values are
modelled as integers (the decisive comparisons in the sources are
unique-value counts against row counts, which are exact).  The python
float comparison nunique() > 0.05 * len is rendered as the exact rational
inequality 20 * nunique > len; for the integer operands arising here the
two comparisons agree.
-/

set_option autoImplicit false
set_option maxRecDepth 8192

/-- Column dtype tag: pandas is_numeric_dtype / is_datetime64_any_dtype
dispatch on the dtype, not on individual cells. -/
inductive Dtype where
  | numeric
  | datetime
  | object
deriving DecidableEq, Repr

/-- One cell of a column: a numeric value, a string, or a missing value
(NaN / None). -/
inductive Cell where
  | num (n : Int)
  | str (s : String)
  | na
deriving DecidableEq, Repr

/-- A pandas Series: dtype plus cells. -/
structure Column where
  dtype : Dtype
  values : List Cell
deriving DecidableEq, Repr

/-- A pandas DataFrame: named columns in order. -/
structure DataFrame where
  cols : List (String × Column)
deriving DecidableEq, Repr

/-- len(series). -/
def colLen (c : Column) : Nat := c.values.length

/-- Count the distinct elements of a list (first occurrences). -/
def countDistinct (l : List Cell) : Nat :=
  (l.foldl (fun acc c => if c ∈ acc then acc else c :: acc) []).length

/-- series.nunique(): distinct values, missing values excluded
(pandas default dropna=True). -/
def colNunique (c : Column) : Nat :=
  countDistinct (c.values.filter (fun v => v ≠ Cell.na))

/-- df.columns. -/
def dfColumns (df : DataFrame) : List String := df.cols.map Prod.fst

/-- The date/time columns of a dataframe, in column order
(ai_recommendation_service.py line 71). -/
def dateColumns (df : DataFrame) : List String :=
  (df.cols.filter (fun p => p.2.dtype = Dtype.datetime)).map Prod.fst

/-- analyze_target_variable (ai_recommendation_service.py lines 5 to 18):
numeric targets with more than 5 percent unique values and more than 20
rows are continuous, all other targets are categorical. -/
def analyze_target_variable (series : Column) : String :=
  if series.dtype = Dtype.numeric then
    if 20 * colNunique series > colLen series ∧ colLen series > 20 then
      "continuous"
    else
      "categorical"
  else
    "categorical"

/-- Output of recommend_model_type: the model_types list and the
explanation string of the returned dictionary. -/
structure Recommendations where
  model_types : List String
  explanation : String
deriving DecidableEq, Repr

/-- Explanation text of the Classification branch
(ai_recommendation_service.py lines 49 to 53). -/
def classificationMsg (tc : String) : String :=
  "선택하신 '" ++ tc ++ "' 변수는 범주형 데이터(예: '예/아니오', 'A/B/C')로 보입니다. " ++
  "따라서 **분류(Classification)** 모델이 가장 적합할 것으로 예상됩니다. " ++
  "분류 모델은 데이터를 미리 정의된 카테고리 중 하나로 예측하는 데 사용됩니다."

/-- Explanation text of the Regression branch
(ai_recommendation_service.py lines 56 to 60). -/
def regressionMsg (tc : String) : String :=
  "선택하신 '" ++ tc ++ "' 변수는 연속적인 숫자 데이터(예: '가격', '온도')로 보입니다. " ++
  "따라서 **회귀(Regression)** 모델이 가장 적합할 것으로 예상됩니다. " ++
  "회귀 모델은 연속적인 숫자 값을 예측하는 데 사용됩니다."

/-- Explanation text of the unreachable fallback inside the
target-present branch (ai_recommendation_service.py line 62). -/
def hardTargetMsg : String :=
  "타겟 변수 분석에 어려움이 있어 일반적인 모델 유형을 추천합니다."

/-- Explanation text of the no-target branch, the three appended pieces of
ai_recommendation_service.py lines 64 to 66. -/
def noTargetMsg : String :=
  "타겟 변수가 지정되지 않았거나 데이터에 없습니다. " ++
  "이 경우, 데이터 내의 숨겨진 패턴을 찾는 **군집 분석(Clustering)**이나, " ++
  "사용자 행동 기반의 **추천 시스템(Recommendation)**을 고려할 수 있습니다."

/-- Time-series note appended when date columns exist
(ai_recommendation_service.py lines 74 to 77). -/
def tsNoteMsg (dateCols : List String) : String :=
  "\n데이터에 날짜/시간 정보(" ++ String.intercalate ", " dateCols ++ ")가 포함되어 있어, " ++
  "시간의 흐름에 따른 패턴을 예측하는 **시계열 예측(Time Series Forecasting)** 모델도 고려할 수 있습니다."

/-- Fallback explanation (ai_recommendation_service.py line 81). -/
def generalMsg : String :=
  "데이터 분석을 위한 일반적인 모델 유형을 추천합니다."

/-- The target-present branch of recommend_model_type
(ai_recommendation_service.py lines 43 to 62). -/
def supervisedRec (tc : String) (col : Column) : Recommendations :=
  let target_type := analyze_target_variable col
  if target_type = "categorical" then
    { model_types := ["Classification"], explanation := classificationMsg tc }
  else if target_type = "continuous" then
    { model_types := ["Regression"], explanation := regressionMsg tc }
  else
    { model_types := [], explanation := hardTargetMsg }

/-- The no-target branch of recommend_model_type
(ai_recommendation_service.py lines 63 to 68). -/
def noTargetRec : Recommendations :=
  { model_types := ["Clustering", "Recommendation"], explanation := noTargetMsg }

/-- Dispatch of recommend_model_type on the target column: the python
guard is `if target_column and target_column in df.columns`, so an empty
string target name is falsy and falls into the no-target branch. -/
def baseRec (df : DataFrame) : Option String → Recommendations
  | some tc =>
      if tc = "" then noTargetRec
      else
        match df.cols.lookup tc with
        | some col => supervisedRec tc col
        | none => noTargetRec
  | none => noTargetRec

/-- recommend_model_type (ai_recommendation_service.py lines 20 to 84). -/
def recommend_model_type (df : DataFrame) (target_column : Option String) :
    Recommendations :=
  let base := baseRec df target_column
  let date_columns := dateColumns df
  let withTs : Recommendations :=
    if date_columns.isEmpty then base
    else
      { model_types := base.model_types ++ ["Time Series Forecasting"],
        explanation := base.explanation ++ tsNoteMsg date_columns }
  if withTs.model_types.isEmpty then
    { model_types := ["General Purpose"], explanation := generalMsg }
  else withTs

/-- The supervised model-type choice of run_auto_ml_pipeline
(auto_ml.py lines 43 to 47): Classification preferred, then Regression. -/
def pickSupervised (types : List String) : Option String :=
  if types.contains "Classification" then some "Classification"
  else if types.contains "Regression" then some "Regression"
  else none

/-
Artifact store and trainer (ml_service.py).  Artifacts on disk are
modelled as an association list from paths to fitted models; joblib.dump
at an existing path replaces the file, which the store models by
replacing the entry.
-/

/-- An abstract fitted model written by joblib.dump: the tag
distinguishes the outcomes of distinct training runs. -/
structure FittedModel where
  tag : Nat
deriving DecidableEq, Repr

/-- The model files on disk, keyed by path. -/
abbrev ArtifactStore : Type := List (String × FittedModel)

/-- joblib.dump: writes the file at the path, replacing an existing file
with that name. -/
def storeDump (st : ArtifactStore) (path : String) (m : FittedModel) :
    ArtifactStore :=
  (path, m) :: st.filter (fun e => e.1 ≠ path)

/-- Read an artifact from the store. -/
def storeGet (st : ArtifactStore) (path : String) : Option FittedModel :=
  st.lookup path

/-- Split a character list at a separator character. -/
def splitOnCharAux (sep : Char) : List Char → List Char → List (List Char)
  | [], acc => [acc.reverse]
  | c :: cs, acc =>
      if c = sep then acc.reverse :: splitOnCharAux sep cs []
      else splitOnCharAux sep cs (c :: acc)

/-- os.path.basename on a posix path: the part after the last slash. -/
def pathBasename (p : String) : String :=
  String.mk ((splitOnCharAux '/' p.data []).getLastD p.data)

/-- Index of the last dot of a character list. -/
def lastDotIdx (cs : List Char) : Option Nat :=
  match cs.reverse.findIdx? (fun c => c = '.') with
  | none => none
  | some j => some (cs.length - 1 - j)

/-- The stem of os.path.splitext: everything before the last dot, except
that a name whose characters before the last dot are all dots is kept
whole (the CPython rule for leading dots). -/
def splitextStem (name : String) : String :=
  let cs := name.data
  match lastDotIdx cs with
  | none => name
  | some i =>
      if (cs.take i).any (fun c => c ≠ '.') then String.mk (cs.take i)
      else name

/-- Artifact filename (ml_service.py line 64):
basename stem of the data file, the model type, and a fixed suffix. -/
def model_filename (file_path model_type : String) : String :=
  splitextStem (pathBasename file_path) ++ "_" ++ model_type ++ "_model.joblib"

/-- Artifact path (ml_service.py lines 12 and 65): MODELS_DIR joined with
the filename. -/
def model_save_path (file_path model_type : String) : String :=
  "trained_models/" ++ model_filename file_path model_type

/-- Outcomes of the external steps of train_model: reading the parquet
file, the sklearn fit (train_test_split, fit and predict folded into one
fallible step), and the metric computation (accuracy, mse or
silhouette_score).  The numerical library calls are outside the
repository; the environment records whether each call raises and what it
returns, so that train_model itself is the code under ml_service.py. -/
structure TrainEnv where
  readOutcome : Except String DataFrame
  fitOutcome : Except String FittedModel
  metricOutcome : Except String Int

/-- Feature selection (ml_service.py lines 34 to 37): df[features] raises
a KeyError when a listed feature is absent; df.drop(columns=[target])
raises when the target is absent. -/
def selectX (df : DataFrame) (features : Option (List String))
    (target_column : String) : Except String Unit :=
  match features with
  | some fs =>
      if fs.all (fun f => (df.cols.lookup f).isSome) then Except.ok ()
      else Except.error "KeyError: feature column not in dataframe"
  | none =>
      if (df.cols.lookup target_column).isSome then Except.ok ()
      else Except.error "KeyError: target column not in dataframe"

/-- Result dictionary of a successful train_model call
(ml_service.py lines 69 to 74). -/
structure TrainResult where
  message : String
  model_path : String
  metrics : List (String × Int)
  explanation : String
deriving Repr

/-- The model-type dispatch of train_model (ml_service.py lines 39 to
62): supervised branches read the target column then fit and evaluate;
the clustering branch fits and evaluates; any other type raises
ValueError.  Every metric is computed before this function returns. -/
def trainCore (env : TrainEnv) (df : DataFrame)
    (target_column model_type : String) :
    Except String (FittedModel × List (String × Int) × String) :=
  if model_type = "Classification" ∨ model_type = "Regression" then
    if (df.cols.lookup target_column).isSome then
      match env.fitOutcome with
      | Except.error e => Except.error e
      | Except.ok m =>
          match env.metricOutcome with
          | Except.error e => Except.error e
          | Except.ok v =>
              if model_type = "Classification" then
                Except.ok (m, [("accuracy", v)],
                  "분류 모델이 성공적으로 학습되었습니다. 정확도는 모델이 올바르게 예측한 비율을 나타냅니다.")
              else
                Except.ok (m, [("mse", v)],
                  "회귀 모델이 성공적으로 학습되었습니다. MSE(평균 제곱 오차)는 예측 값과 실제 값의 차이를 나타냅니다.")
    else Except.error "KeyError: target column not in dataframe"
  else if model_type = "Clustering" then
    match env.fitOutcome with
    | Except.error e => Except.error e
    | Except.ok m =>
        match env.metricOutcome with
        | Except.error e => Except.error e
        | Except.ok v =>
            Except.ok (m, [("silhouette_score", v)],
              "군집 분석 모델이 성공적으로 학습되었습니다. 실루엣 점수는 군집이 얼마나 잘 분리되었는지 나타냅니다.")
  else Except.error ("Unsupported model type: " ++ model_type)

/-- Last stage of train_model (ml_service.py lines 64 to 74): after a
successful fit and metric computation, write the artifact and build the
result dictionary; on a raised error, return it with the store
untouched. -/
def trainFinish (st : ArtifactStore) (file_path model_type : String)
    (r : Except String (FittedModel × List (String × Int) × String)) :
    Except String TrainResult × ArtifactStore :=
  match r with
  | Except.error e => (Except.error e, st)
  | Except.ok (m, met, expl) =>
      let path := model_save_path file_path model_type
      (Except.ok
        { message := model_type ++ " 모델 학습이 성공적으로 완료되었습니다.",
          model_path := path, metrics := met, explanation := expl },
       storeDump st path m)

/-- train_model after the dataframe is read: select features, fit and
evaluate, then finish. -/
def trainWithDf (env : TrainEnv) (st : ArtifactStore)
    (file_path target_column model_type : String)
    (features : Option (List String)) (df : DataFrame) :
    Except String TrainResult × ArtifactStore :=
  match selectX df features target_column with
  | Except.error e => (Except.error e, st)
  | Except.ok _ =>
      trainFinish st file_path model_type
        (trainCore env df target_column model_type)

/-- train_model (ml_service.py lines 15 to 77): read the data, select
features, fit and evaluate, and only then write the artifact.  Returns
the result or the raised error, together with the artifact store after
the call; an exception propagates (lines 75 to 77 re-raise) and leaves
the store untouched. -/
def train_model (env : TrainEnv) (st : ArtifactStore)
    (file_path target_column model_type : String)
    (features : Option (List String)) :
    Except String TrainResult × ArtifactStore :=
  match env.readOutcome with
  | Except.error e => (Except.error e, st)
  | Except.ok df =>
      trainWithDf env st file_path target_column model_type features df

/-
Predictor (ml_service.py predict_with_model, ml_routes.py predict).
-/

/-- One input record of a prediction batch: a flat mapping from feature
name to value, as posted to the predict endpoint. -/
abbrev Record : Type := List (String × Cell)

/-- A loaded artifact as the predictor sees it: the feature names the
model was fitted with, and its scoring function. -/
structure SavedModel where
  feature_names : List String
  score : Record → Cell

/-- Error message standing for the exception the fitted model raises
on an invalid batch. -/
def missingFeatureMsg : String :=
  "ValueError: required feature missing from input records"

/-- Modelled from the spec: the predict call of the fitted sklearn model,
library code outside this repository.  Every feature recorded at fit time
must be supplied by every record (a record without it yields a missing
column or a NaN entry after the DataFrame conversion, and the call
raises); on success the model scores each row, one prediction per record
in input order. -/
def modelPredict (m : SavedModel) (rows : List Record) :
    Except String (List Cell) :=
  if rows.all (fun r => m.feature_names.all (fun f => (r.lookup f).isSome)) then
    Except.ok (rows.map m.score)
  else Except.error missingFeatureMsg

/-- predict_with_model (ml_service.py lines 93 to 108): load the model,
predict, convert to a list; any exception propagates, so the caller gets
either every prediction or none. -/
def predict_with_model (loadOutcome : Except String SavedModel)
    (rows : List Record) : Except String (List Cell) :=
  match loadOutcome with
  | Except.error e => Except.error e
  | Except.ok m => modelPredict m rows

/-- Number of predictions a caller receives from a prediction outcome:
a raised error yields none. -/
def predictionCount (r : Except String (List Cell)) : Nat :=
  match r with
  | Except.error _ => 0
  | Except.ok l => l.length

/-- The predict endpoint (ml_routes.py lines 46 to 64): on an exception
the whole request fails with HTTP 500 and no predictions are returned. -/
def predict_ml_model (loadOutcome : Except String SavedModel)
    (rows : List Record) : Except Nat (List Cell) :=
  match predict_with_model loadOutcome rows with
  | Except.error _ => Except.error 500
  | Except.ok l => Except.ok l

/-
Asynchronous task layer (tasks.py).  The Celery result backend is
modelled as a map from task id to the recorded task state; the pieces of
Celery behaviour the code relies on (AsyncResult reports unknown ids as
PENDING; revoke leaves a finished task result intact) are modelled from
the Celery contract, since that library is outside the repository.
-/

/-- The state the Celery result backend records for a task id. -/
inductive CeleryState where
  | pending
  | progress (percent : Nat) (message : String)
  | success (result : String)
  | failure (error : String)
  | revoked
deriving DecidableEq, Repr

/-- The Celery result backend. -/
structure CeleryBackend where
  tasks : List (String × CeleryState)
deriving DecidableEq, Repr

/-- AsyncResult state lookup: an id the backend has never seen is
reported as PENDING (the Celery contract for unknown ids). -/
def backendState (b : CeleryBackend) (task_id : String) : CeleryState :=
  (b.tasks.lookup task_id).getD CeleryState.pending

/-- A task state from which no further transition happens. -/
def terminalState : CeleryState → Bool
  | CeleryState.success _ => true
  | CeleryState.failure _ => true
  | CeleryState.revoked => true
  | _ => false

/-- The response dictionary of get_task_status. -/
inductive StatusResponse where
  | pending (message : String)
  | progress (percent : Nat) (message : String)
  | success (result : String)
  | failure (error : String)
  | other (status : String)
deriving DecidableEq, Repr

/-- get_task_status (tasks.py lines 204 to 248): dispatch on the
AsyncResult state. -/
def get_task_status (b : CeleryBackend) (task_id : String) :
    StatusResponse :=
  match backendState b task_id with
  | CeleryState.pending => StatusResponse.pending "작업이 대기 중입니다"
  | CeleryState.progress p msg => StatusResponse.progress p msg
  | CeleryState.success r => StatusResponse.success r
  | CeleryState.failure e => StatusResponse.failure e
  | CeleryState.revoked => StatusResponse.other "REVOKED"

/-- Modelled from the spec and the Celery contract: control.revoke marks
a waiting or running task revoked and never rewrites the stored result of
a task that already finished. -/
def revokeTask (b : CeleryBackend) (task_id : String) : CeleryBackend :=
  if terminalState (backendState b task_id) then b
  else { tasks := (task_id, CeleryState.revoked) ::
                    b.tasks.filter (fun e => e.1 ≠ task_id) }

/-- cancel_task (tasks.py lines 250 to 266): revoke the task and return
True; False only when the revoke call itself raises.  The returned
boolean is the success field of the cancel endpoint
(task_routes.py lines 12 to 16). -/
def cancel_task (b : CeleryBackend) (task_id : String) :
    Bool × CeleryBackend :=
  (true, revokeTask b task_id)

/-
Worker tasks (tasks.py train_model_task and generate_predictions_task),
viewed through the progress values they write with update_state and the
final state they reach.  Each fallible external step (the database
lookups, the training call, the commit, the knowledge-base update) is an
outcome recorded in the environment.
-/

/-- Outcomes of the external steps of train_model_task. -/
structure TrainTaskEnv where
  modelRow : Option Nat
  datasetRow : Option Nat
  trainOutcome : Except String Unit
  commitOutcome : Except String Unit
  ragOutcome : Except String Unit

/-- Final state of a finished task run. -/
inductive FinalStatus where
  | succeeded
  | failed
deriving DecidableEq, Repr

/-- train_model_task (tasks.py lines 50 to 145): the list of progress
percentages written with update_state over the run, and the final state.
Progress 10 precedes training, 70 precedes the commit, 90 precedes the
knowledge-base update whose failure is swallowed (lines 110 to 114); an
exception routes to the FAILURE handler, which writes an error meta
without a progress value and re-raises. -/
def train_model_task (env : TrainTaskEnv) : List Nat × FinalStatus :=
  match env.modelRow with
  | none => ([], FinalStatus.failed)
  | some _ =>
    match env.datasetRow with
    | none => ([], FinalStatus.failed)
    | some _ =>
      match env.trainOutcome with
      | Except.error _ => ([10], FinalStatus.failed)
      | Except.ok _ =>
        match env.commitOutcome with
        | Except.error _ => ([10, 70], FinalStatus.failed)
        | Except.ok _ => ([10, 70, 90], FinalStatus.succeeded)

/-- Outcomes of the external steps of generate_predictions_task. -/
structure PredictTaskEnv where
  modelRow : Option Nat
  predictOutcome : Except String Unit

/-- generate_predictions_task (tasks.py lines 147 to 201): progress 30 is
written before the prediction call. -/
def generate_predictions_task (env : PredictTaskEnv) :
    List Nat × FinalStatus :=
  match env.modelRow with
  | none => ([], FinalStatus.failed)
  | some _ =>
    match env.predictOutcome with
    | Except.error _ => ([30], FinalStatus.failed)
    | Except.ok _ => ([30], FinalStatus.succeeded)

/-
Helper definitions and lemmas about the recommendation engine.
-/

/-- The continuity condition of analyze_target_variable, written out:
numeric dtype, more than 5 percent unique values (exactly: 20 times the
unique count exceeds the row count) and more than 20 rows. -/
def contCond (col : Column) : Prop :=
  col.dtype = Dtype.numeric ∧
    20 * colNunique col > colLen col ∧ colLen col > 20

instance (col : Column) : Decidable (contCond col) := by
  unfold contCond; infer_instance

/-- The model types the date-column rule appends. -/
def tsSuffix (df : DataFrame) : List String :=
  if (dateColumns df).isEmpty then [] else ["Time Series Forecasting"]

/-- The explanation text the date-column rule appends. -/
def tsExpl (df : DataFrame) : String :=
  if (dateColumns df).isEmpty then "" else tsNoteMsg (dateColumns df)

/-- A numeric column with 30 rows and 30 distinct values: continuous by
the analyze_target_variable rule. -/
def edgeCol : Column :=
  { dtype := Dtype.numeric,
    values := (List.range 30).map (fun n => Cell.num (Int.ofNat n)) }

/-- A dataframe whose single column is named by the empty string: the
python truthiness guard of recommend_model_type treats this present
target column as absent. -/
def edgeDf : DataFrame := { cols := [("", edgeCol)] }

/-- A small training dataframe with a target column y and a feature x. -/
def dfTrain : DataFrame :=
  { cols := [("y", { dtype := Dtype.numeric, values := [Cell.num 0] }),
             ("x", { dtype := Dtype.numeric, values := [Cell.num 1] })] }

/-- A training environment whose external steps all succeed, producing
the fitted model tagged 0. -/
def envRun0 : TrainEnv :=
  { readOutcome := Except.ok dfTrain,
    fitOutcome := Except.ok { tag := 0 },
    metricOutcome := Except.ok 0 }

/-- A second successful training environment, producing the distinct
fitted model tagged 1. -/
def envRun1 : TrainEnv :=
  { readOutcome := Except.ok dfTrain,
    fitOutcome := Except.ok { tag := 1 },
    metricOutcome := Except.ok 0 }

/-- A backend holding one task that already succeeded. -/
def succBackend : CeleryBackend :=
  { tasks := [("t", CeleryState.success "done")] }

/-- A backend holding one pending task. -/
def pendBackend : CeleryBackend :=
  { tasks := [("u", CeleryState.pending)] }

lemma supervisedRec_types (tc : String) (col : Column) :
    (supervisedRec tc col).model_types =
      if contCond col then ["Regression"] else ["Classification"] := by
  unfold supervisedRec analyze_target_variable contCond
  by_cases hd : col.dtype = Dtype.numeric
  · by_cases hc : 20 * colNunique col > colLen col ∧ colLen col > 20
    · simp [hd, hc]
    · simp [hd, hc]
  · simp [hd]

lemma baseRec_types_ne_nil (df : DataFrame) (t : Option String) :
    (baseRec df t).model_types ≠ [] := by
  cases t with
  | none => simp [baseRec, noTargetRec]
  | some tc =>
      unfold baseRec
      by_cases h0 : tc = ""
      · simp [h0, noTargetRec]
      · cases hl : df.cols.lookup tc with
        | none => simp [h0, hl, noTargetRec]
        | some col =>
            simp only [h0, if_false, hl]
            rw [supervisedRec_types]
            split <;> simp

lemma recommend_types_eq (df : DataFrame) (t : Option String) :
    (recommend_model_type df t).model_types =
      (baseRec df t).model_types ++ tsSuffix df := by
  unfold recommend_model_type tsSuffix
  have hb := baseRec_types_ne_nil df t
  by_cases hd : (dateColumns df).isEmpty
  · simp [hd, hb]
  · simp [hd]

lemma recommend_expl_eq (df : DataFrame) (t : Option String) :
    (recommend_model_type df t).explanation =
      (baseRec df t).explanation ++ tsExpl df := by
  unfold recommend_model_type tsExpl
  have hb := baseRec_types_ne_nil df t
  by_cases hd : (dateColumns df).isEmpty
  · simp [hd, hb]
  · simp [hd]

lemma tsSuffix_cases (df : DataFrame) :
    tsSuffix df = [] ∨ tsSuffix df = ["Time Series Forecasting"] := by
  unfold tsSuffix; split
  · exact Or.inl rfl
  · exact Or.inr rfl

lemma baseRec_shape (df : DataFrame) (t : Option String) :
    (baseRec df t).model_types = ["Classification"] ∨
    (baseRec df t).model_types = ["Regression"] ∨
    (baseRec df t).model_types = ["Clustering", "Recommendation"] := by
  cases t with
  | none =>
      right; right; simp [baseRec, noTargetRec]
  | some tc =>
      unfold baseRec
      by_cases h0 : tc = ""
      · right; right; simp [h0, noTargetRec]
      · cases hl : df.cols.lookup tc with
        | none => right; right; simp [h0, hl, noTargetRec]
        | some col =>
            simp only [h0, if_false, hl]
            rw [supervisedRec_types]
            by_cases hc : contCond col
            · right; left; simp [hc]
            · left; simp [hc]

lemma baseRec_present (df : DataFrame) (tc : String) (col : Column)
    (h1 : tc ≠ "") (h2 : df.cols.lookup tc = some col) :
    baseRec df (some tc) = supervisedRec tc col := by
  simp [baseRec, h1, h2]

lemma supervisedRec_expl_pos (tc : String) (col : Column) :
    0 < (supervisedRec tc col).explanation.length := by
  by_cases h1 : analyze_target_variable col = "categorical"
  · have he : (supervisedRec tc col).explanation = classificationMsg tc := by
      simp [supervisedRec, h1]
    rw [he]; unfold classificationMsg
    have h : 0 < ("선택하신 '" : String).length := by decide
    simp only [String.length_append]
    omega
  · by_cases h2 : analyze_target_variable col = "continuous"
    · have he : (supervisedRec tc col).explanation = regressionMsg tc := by
        simp [supervisedRec, h1, h2]
      rw [he]; unfold regressionMsg
      have h : 0 < ("선택하신 '" : String).length := by decide
      simp only [String.length_append]
      omega
    · have he : (supervisedRec tc col).explanation = hardTargetMsg := by
        simp [supervisedRec, h1, h2]
      rw [he]; decide

lemma baseRec_expl_pos (df : DataFrame) (t : Option String) :
    0 < (baseRec df t).explanation.length := by
  cases t with
  | none =>
      have he : (baseRec df none).explanation = noTargetMsg := rfl
      rw [he]; decide
  | some tc =>
      unfold baseRec
      by_cases h0 : tc = ""
      · simp only [h0, if_true]
        have he : noTargetRec.explanation = noTargetMsg := rfl
        rw [he]; decide
      · cases hl : df.cols.lookup tc with
        | none =>
            simp only [h0, if_false, hl]
            have he : noTargetRec.explanation = noTargetMsg := rfl
            rw [he]; decide
        | some col =>
            simp only [h0, if_false, hl]
            exact supervisedRec_expl_pos tc col

/-
Claim theorems.
-/

/-- C1 counterexample: the dataframe edgeDf contains the target column
named by the empty string, that column is numeric with more than 5
percent unique values and more than 20 rows, so the claim requires a
Regression recommendation; the code routes the falsy name into the
no-target branch and recommends neither Regression nor Classification. -/
theorem C1_counterexample :
    (edgeDf.cols.lookup "").isSome = true ∧
    contCond edgeCol ∧
    (recommend_model_type edgeDf (some "")).model_types.contains
        "Regression" = false ∧
    (recommend_model_type edgeDf (some "")).model_types.contains
        "Classification" = false := by
  decide

/-- C1 (amended): for every dataframe whose given target column has a
non-empty name and is present, the engine recommends Regression exactly
when the target is numeric, its unique count exceeds 5 percent of the
row count and the row count exceeds 20, and otherwise recommends
Classification. -/
theorem C1_target_rule_amended (df : DataFrame) (tc : String) (col : Column)
    (h1 : tc ≠ "") (h2 : df.cols.lookup tc = some col) :
    ("Regression" ∈ (recommend_model_type df (some tc)).model_types ↔
       contCond col) ∧
    ("Classification" ∈ (recommend_model_type df (some tc)).model_types ↔
       ¬ contCond col) := by
  rw [recommend_types_eq, baseRec_present df tc col h1 h2,
      supervisedRec_types]
  have hts : ("Regression" ∉ tsSuffix df) ∧ ("Classification" ∉ tsSuffix df) := by
    rcases tsSuffix_cases df with h | h <;> rw [h] <;> exact ⟨by simp, by simp⟩
  by_cases hc : contCond col
  · simp [hc, hts.1, hts.2]
  · simp [hc, hts.1, hts.2]

/-- C1 witness: a concrete two-column dataframe with a numeric target of
30 distinct values over 30 rows, instantiating the amended rule. -/
theorem C1_target_rule_amended_witness :
    ("Regression" ∈
        (recommend_model_type { cols := [("y", edgeCol)] } (some "y")).model_types ↔
       contCond edgeCol) ∧
    ("Classification" ∈
        (recommend_model_type { cols := [("y", edgeCol)] } (some "y")).model_types ↔
       ¬ contCond edgeCol) :=
  C1_target_rule_amended { cols := [("y", edgeCol)] } "y" edgeCol
    (by decide) rfl

/-- C2: with no target column the engine always recommends both
Clustering and Recommendation, and its explanation starts with the text
that no target variable was given. -/
theorem C2_no_target_candidates (df : DataFrame) :
    "Clustering" ∈ (recommend_model_type df none).model_types ∧
    "Recommendation" ∈ (recommend_model_type df none).model_types ∧
    ∃ rest, (recommend_model_type df none).explanation =
      noTargetMsg ++ rest := by
  refine ⟨?_, ?_, ⟨tsExpl df, ?_⟩⟩
  · rw [recommend_types_eq]; simp [baseRec, noTargetRec]
  · rw [recommend_types_eq]; simp [baseRec, noTargetRec]
  · rw [recommend_expl_eq]
    have he : (baseRec df none).explanation = noTargetMsg := rfl
    rw [he]

/-- C3: for every dataframe and every optional target column the engine
returns a non-empty candidate list and a non-empty rationale string. -/
theorem C3_nonempty_output (df : DataFrame) (t : Option String) :
    0 < (recommend_model_type df t).model_types.length ∧
    0 < (recommend_model_type df t).explanation.length := by
  constructor
  · rw [recommend_types_eq]
    have h := baseRec_types_ne_nil df t
    have hl : 0 < (baseRec df t).model_types.length :=
      List.length_pos.mpr h
    rw [List.length_append]
    omega
  · rw [recommend_expl_eq]
    have h := baseRec_expl_pos df t
    rw [String.length_append]
    omega

/-- C10: the candidate list never contains Classification and Regression
together, and the supervised candidates it does contain are exactly the
one the AutoML pipeline preference picks, so the preference discards
nothing. -/
theorem C10_supervised_exclusive (df : DataFrame) (t : Option String) :
    ((recommend_model_type df t).model_types.contains "Classification" &&
       (recommend_model_type df t).model_types.contains "Regression") = false ∧
    (recommend_model_type df t).model_types.filter
        (fun s => s == "Classification" || s == "Regression") =
      (pickSupervised (recommend_model_type df t).model_types).toList := by
  rw [recommend_types_eq]
  rcases baseRec_shape df t with h | h | h <;>
    rcases tsSuffix_cases df with h2 | h2 <;>
      rw [h, h2] <;> decide

/-- C4 counterexample: two training runs over dataset files with the
same basename stem and the same model type write to the same artifact
path; the second run replaces the artifact of the first instead of
producing a new path. -/
theorem C4_counterexample :
    model_save_path "data/iris.parquet" "Classification" =
      model_save_path "uploads/iris.parquet" "Classification" ∧
    storeGet (train_model envRun0 [] "data/iris.parquet" "y"
        "Classification" none).2
        "trained_models/iris_Classification_model.joblib" =
      some { tag := 0 } ∧
    storeGet (train_model envRun1
        (train_model envRun0 [] "data/iris.parquet" "y"
          "Classification" none).2
        "uploads/iris.parquet" "y" "Classification" none).2
        "trained_models/iris_Classification_model.joblib" =
      some { tag := 1 } := by
  decide

/-- C4 (amended): the artifact path is a deterministic function of the
dataset basename stem and the model type; a later run whose dataset name
has the same stem and whose model type coincides writes to the very same
path, and the write replaces whatever the store held at that path. -/
theorem C4_artifact_path_amended (fp1 fp2 mt : String)
    (st : ArtifactStore) (m : FittedModel)
    (h : splitextStem (pathBasename fp1) = splitextStem (pathBasename fp2)) :
    storeGet (storeDump st (model_save_path fp2 mt) m)
        (model_save_path fp1 mt) = some m := by
  unfold model_save_path model_filename
  rw [h]
  unfold storeGet storeDump
  simp [List.lookup]

/-- C4 witness: the amended path rule at two concrete dataset files with
the same basename. -/
theorem C4_artifact_path_amended_witness :
    storeGet (storeDump []
        (model_save_path "uploads/iris.parquet" "Classification")
        { tag := 5 })
        (model_save_path "data/iris.parquet" "Classification") =
      some { tag := 5 } :=
  C4_artifact_path_amended "data/iris.parquet" "uploads/iris.parquet"
    "Classification" [] { tag := 5 } (by decide)

/-- C5: whenever train_model raises (reading the data, selecting
features, fitting or computing the metric fails, or the model type is
unsupported), the artifact store is unchanged: the artifact write is the
last step and happens only after the metric is computed. -/
theorem C5_no_artifact_on_error (env : TrainEnv) (st : ArtifactStore)
    (fp tc mt : String) (fs : Option (List String)) (e : String)
    (h : (train_model env st fp tc mt fs).1 = Except.error e) :
    (train_model env st fp tc mt fs).2 = st := by
  unfold train_model at h ⊢
  rcases hr : env.readOutcome with e2 | df
  · rfl
  · rw [hr] at h
    replace h : (trainWithDf env st fp tc mt fs df).1 = Except.error e := h
    show (trainWithDf env st fp tc mt fs df).2 = st
    unfold trainWithDf at h ⊢
    rcases hs : selectX df fs tc with e2 | u
    · rfl
    · rw [hs] at h
      replace h : (trainFinish st fp mt (trainCore env df tc mt)).1 =
          Except.error e := h
      show (trainFinish st fp mt (trainCore env df tc mt)).2 = st
      unfold trainFinish at h ⊢
      rcases hc : trainCore env df tc mt with e2 | ⟨mm, met, expl⟩
      · rfl
      · rw [hc] at h
        simp at h

/-- C5 witness: a run whose data loading raises leaves the empty store
empty. -/
theorem C5_no_artifact_on_error_witness :
    (train_model
        { readOutcome := Except.error "boom",
          fitOutcome := Except.ok { tag := 0 },
          metricOutcome := Except.ok 0 }
        [] "data/iris.parquet" "y" "Classification" none).2 = [] :=
  C5_no_artifact_on_error _ [] "data/iris.parquet" "y" "Classification"
    none "boom" rfl

/-- C6: prediction is atomic: when every record supplies every feature
the loaded artifact requires, the predictor returns exactly one
prediction per record, each record scored in input order; when some
record lacks a required feature the whole batch fails; in every case the
caller receives either zero predictions or one per record, never a
partial list. -/
theorem C6_predict_atomic (m : SavedModel) (rows : List Record) :
    predict_with_model (Except.ok m) rows =
      (if rows.all (fun r =>
            m.feature_names.all (fun f => (r.lookup f).isSome))
       then Except.ok (rows.map m.score)
       else Except.error missingFeatureMsg) ∧
    (predictionCount (predict_with_model (Except.ok m) rows) = 0 ∨
     predictionCount (predict_with_model (Except.ok m) rows) =
       rows.length) ∧
    (predict_ml_model (Except.ok m) rows = Except.error 500 ∨
     predict_ml_model (Except.ok m) rows = Except.ok (rows.map m.score)) := by
  have hpred : predict_with_model (Except.ok m) rows =
      (if rows.all (fun r =>
            m.feature_names.all (fun f => (r.lookup f).isSome))
       then Except.ok (rows.map m.score)
       else Except.error missingFeatureMsg) := rfl
  refine ⟨hpred, ?_, ?_⟩
  · cases hall : rows.all (fun r =>
        m.feature_names.all (fun f => (r.lookup f).isSome))
    · left; simp [predictionCount, hpred, hall]
    · right; simp [predictionCount, hpred, hall]
  · cases hall : rows.all (fun r =>
        m.feature_names.all (fun f => (r.lookup f).isSome))
    · left; simp [predict_ml_model, hpred, hall]
    · right; simp [predict_ml_model, hpred, hall]

/-- C7 counterexample: cancelling the already succeeded task t returns
the same success flag true that cancelling the live pending task u
returns, so the caller gets no too-late result; only the stored outcome
stays intact. -/
theorem C7_counterexample :
    (cancel_task succBackend "t").1 = true ∧
    (cancel_task succBackend "t").2 = succBackend ∧
    (cancel_task pendBackend "u").1 = true := by
  decide

/-- C7 (amended): a cancel request for a job in a terminal state returns
success true, the very value a live cancellation returns, rather than a
distinct too-late result; the stored terminal outcome is not
overwritten. -/
theorem C7_cancel_terminal_amended (b : CeleryBackend) (id : String)
    (h : terminalState (backendState b id) = true) :
    cancel_task b id = (true, b) := by
  unfold cancel_task revokeTask
  rw [h]
  simp

/-- C7 witness: the amended cancel rule at the succeeded task t. -/
theorem C7_cancel_terminal_amended_witness :
    cancel_task succBackend "t" = (true, succBackend) :=
  C7_cancel_terminal_amended succBackend "t" (by decide)

/-- C8 counterexample: a status query for an id that was never created
returns the ordinary pending snapshot, identical to the snapshot of the
existing pending task u, so callers cannot distinguish the two. -/
theorem C8_counterexample :
    get_task_status { tasks := [] } "ghost" =
      get_task_status pendBackend "u" := by
  decide

/-- C8 (amended): a status query for an id absent from the result
backend returns the pending snapshot, the same shape an existing pending
job produces, because the Celery backend reports unknown ids as
PENDING; no NotFound outcome exists. -/
theorem C8_unknown_status_amended (b : CeleryBackend) (id : String)
    (h : b.tasks.lookup id = none) :
    get_task_status b id = StatusResponse.pending "작업이 대기 중입니다" := by
  unfold get_task_status backendState
  rw [h]
  rfl

/-- C8 witness: the amended status rule at the empty backend. -/
theorem C8_unknown_status_amended_witness :
    get_task_status { tasks := [] } "nope" =
      StatusResponse.pending "작업이 대기 중입니다" :=
  C8_unknown_status_amended { tasks := [] } "nope" rfl

/-- C9: over every run of the training task and of the prediction task,
the progress values written form a non-decreasing sequence of values at
most 100, and a write of 100 could only occur on a run that succeeds. -/
theorem C9_progress_monotone (env : TrainTaskEnv) (penv : PredictTaskEnv) :
    (List.Chain' (fun a b => a ≤ b) (train_model_task env).1 ∧
     (train_model_task env).1.all (fun p => p ≤ 100) = true ∧
     (100 ∉ (train_model_task env).1 ∨
       (train_model_task env).2 = FinalStatus.succeeded)) ∧
    (List.Chain' (fun a b => a ≤ b) (generate_predictions_task penv).1 ∧
     (generate_predictions_task penv).1.all (fun p => p ≤ 100) = true ∧
     (100 ∉ (generate_predictions_task penv).1 ∨
       (generate_predictions_task penv).2 = FinalStatus.succeeded)) := by
  obtain ⟨m, d, tr, co, ra⟩ := env
  obtain ⟨pm, pr⟩ := penv
  constructor
  · cases m <;> cases d <;> cases tr <;> cases co <;>
      simp [train_model_task]
  · cases pm <;> cases pr <;>
      simp [generate_predictions_task]

/-- Sanity check of the artifact naming scheme on a concrete path. -/
theorem model_save_path_example :
    model_save_path "data/iris.parquet" "Classification" =
      "trained_models/iris_Classification_model.joblib" := by decide

/-- Sanity check of the recommendation rule at the spec example of 30
rows with 30 unique numeric values. -/
theorem recommend_regression_example :
    (recommend_model_type { cols := [("y", edgeCol)] }
      (some "y")).model_types = ["Regression"] := by decide

/-- Sanity check of the no-target recommendation on a one-column
object dataframe. -/
theorem recommend_no_target_example :
    (recommend_model_type
      { cols := [("y", { dtype := Dtype.object, values := [Cell.str "a"] })] }
      none).model_types = ["Clustering", "Recommendation"] := by decide
